import Mathlib

/-!
Shallow embedding of the Walrus client-side communication engine
(`crates/walrus-service/src/client/communication.rs` and the BFT threshold
arithmetic used by `crates/walrus-service/src/cli_utils.rs`), together with
proofs of the specified properties.

Network calls are modelled by oracles: a `StoreOracle` records, for each
sub-call of the write pipeline and each attempt number, the response the
storage node would give.  The unordered completion of the concurrent
per-sliver tasks is modelled by an explicit completion order, quantified
over all permutations of the issued requests.
-/

namespace Walrus

/-- Abstract transport/verification error returned by the storage-node client
(`walrus_sdk::error::NodeError`); the core never inspects its contents. -/
structure NodeError where
  code : Nat
deriving DecidableEq, Repr

/-- Abstract verified blob metadata (`VerifiedBlobMetadataWithId`); the core
treats it as an opaque verified payload. -/
structure BlobMetadata where
  blob_id : Nat
deriving DecidableEq, Repr

/-- Abstract signed storage confirmation (`SignedStorageConfirmation`). -/
structure Confirmation where
  signature : Nat
deriving DecidableEq, Repr

/-- One erasure-coded fragment; contents are opaque to the communication core. -/
structure Sliver where
  data : Nat
deriving DecidableEq, Repr

/-- The encoding axis of a sliver (`walrus_core::SliverType`). -/
inductive SliverType where
  | primary
  | secondary
deriving DecidableEq, Repr

/-- A pair of slivers sharing one pair index (`walrus_core::encoding::SliverPair`). -/
structure SliverPair where
  index : Nat
  primary : Sliver
  secondary : Sliver
deriving DecidableEq, Repr

/-- Error for a sliver that could not be stored after retries
(`client::error::SliverStoreError`): identifies the pair index and axis. -/
structure SliverStoreError where
  pair_index : Nat
  sliver_type : SliverType
  error : NodeError
deriving DecidableEq, Repr

/-- Error of the write pipeline (`client::error::StoreError`): tagged by the
stage that failed. -/
inductive StoreError where
  | Metadata (e : NodeError)
  | SliverStore (e : SliverStoreError)
  | Confirmation (e : NodeError)
deriving DecidableEq, Repr

/-- Client-construction error kind (`ClientErrorKind`); only `InvalidConfig`
is produced by `NodeCommunication::new`. -/
inductive ClientErrorKind where
  | invalidConfig
  | other
deriving DecidableEq, Repr

/-- A committee member (`walrus_sui::types::StorageNode`): the communication
core only reads its owned-shard set (address and public key are opaque). -/
structure StorageNode where
  shard_ids : List Nat
deriving DecidableEq, Repr

/-- Request-rate configuration (`client::config::RequestRateConfig`). -/
structure RequestRateConfig where
  max_node_connections : Nat
  min_backoff : Nat
  max_backoff : Nat
  max_retries : Nat
deriving DecidableEq, Repr

/-- The per-node communication client (`NodeCommunication`): bound to one
peer, one epoch, and one encoding configuration (only the shard count is
relevant here). -/
structure NodeCommunication where
  node_index : Nat
  epoch : Nat
  node : StorageNode
  n_shards : Nat
  config : RequestRateConfig
deriving DecidableEq, Repr

/-- Result of an interaction with a storage node (`NodeResult`): the epoch,
the weight of the interaction, the node index, and the operation outcome. -/
structure NodeResult (T E : Type) where
  epoch : Nat
  weight : Nat
  node_index : Nat
  result : Except E T

/-- `NodeCommunication::new`: construction fails with `InvalidConfig` when the
node owns no shards (the `ensure!` at communication.rs:89); otherwise the
client is created bound to the given index, epoch, node, and config. -/
def NodeCommunication.new (node_index : Nat) (epoch : Nat) (node : StorageNode)
    (n_shards : Nat) (config : RequestRateConfig) :
    Except ClientErrorKind NodeCommunication :=
  if node.shard_ids.isEmpty then
    Except.error ClientErrorKind.invalidConfig
  else
    Except.ok
      { node_index := node_index, epoch := epoch, node := node,
        n_shards := n_shards, config := config }

/-- `NodeCommunication::n_owned_shards`: the number of shards owned by the
node (the source converts to `NonZeroU16`; the count is positive for any
successfully constructed client). -/
def NodeCommunication.n_owned_shards (nc : NodeCommunication) : Nat :=
  nc.node.shard_ids.length

/-- `NodeCommunication::to_node_result`. -/
def NodeCommunication.to_node_result {T E : Type} (nc : NodeCommunication)
    (weight : Nat) (result : Except E T) : NodeResult T E :=
  { epoch := nc.epoch, weight := weight, node_index := nc.node_index,
    result := result }

/-- Modelled from the spec: `walrus_core::bft::max_n_faulty` is not under
`src/`; §4.5 gives `f = ⌊(n−1)/3⌋`, the maximum tolerated faulty shard
count. -/
def max_n_faulty (n : Nat) : Nat :=
  (n - 1) / 3

/-- Modelled from the spec: `walrus_core::bft::min_n_correct` is not under
`src/`; §4.5 gives min-correct `= n − f`. -/
def min_n_correct (n : Nat) : Nat :=
  n - max_n_faulty n

/-- Modelled from the spec: `crate::utils::ExponentialBackoff` is not under
`src/`; §4.3 describes exponential backoff with a minimum delay, a maximum
delay (cap), a maximum retry count, and a seed derived from the peer index. -/
structure ExponentialBackoff where
  min_backoff : Nat
  max_backoff : Nat
  max_retries : Nat
  seed : Nat
deriving DecidableEq, Repr

/-- Modelled from the spec: the delay slept before retry `i` is
`min(max_delay, min_delay * 2^attempt)` (§4.3); the seeded jitter only
displaces the sleep inside this capped bound, so the delay magnitude is the
capped exponential. -/
def ExponentialBackoff.delay (b : ExponentialBackoff) (attempt : Nat) : Nat :=
  min b.max_backoff (b.min_backoff * 2 ^ attempt)

/-- Modelled from the spec: `crate::utils::retry` is not under `src/`; §4.3
describes it as attempting the call, retrying on failure while attempts
remain, and returning the last error verbatim once no attempts remain.
The fuel is the number of retries still allowed; the pair also returns the
total number of attempts made. -/
def retryAux {E T : Type} (f : Nat → Except E T) :
    Nat → Nat → Except E T × Nat
  | fuel, attempt =>
    match f attempt with
    | Except.ok t => (Except.ok t, attempt + 1)
    | Except.error e =>
      match fuel with
      | 0 => (Except.error e, attempt + 1)
      | fuel' + 1 => retryAux f fuel' (attempt + 1)

/-- Modelled from the spec: the retried call makes at most
`max_retries + 1` attempts, starting from attempt `0`. -/
def retry {E T : Type} (b : ExponentialBackoff) (f : Nat → Except E T) :
    Except E T × Nat :=
  retryAux f b.max_retries 0

/-- `NodeCommunication::backoff_strategy`: the backoff for this node, seeded
with the node index. -/
def NodeCommunication.backoff_strategy (nc : NodeCommunication) :
    ExponentialBackoff :=
  { min_backoff := nc.config.min_backoff, max_backoff := nc.config.max_backoff,
    max_retries := nc.config.max_retries, seed := nc.node_index }

/-- The environment of the write pipeline: the responses the storage node
gives to each sub-call, per attempt number.  A response may depend on the
pair index, the axis, and the attempt, covering always-failing and
eventually-succeeding nodes alike. -/
structure StoreOracle where
  store_metadata : Nat → Except NodeError Unit
  store_sliver : Nat → SliverType → Nat → Except NodeError Unit
  confirmation : Except NodeError Confirmation

/-- `NodeCommunication::store_metadata_with_retries`: the metadata store
wrapped in the backoff strategy; also returns the number of attempts made. -/
def NodeCommunication.store_metadata_with_retries (nc : NodeCommunication)
    (oracle : StoreOracle) : Except NodeError Unit × Nat :=
  retry nc.backoff_strategy oracle.store_metadata

/-- `NodeCommunication::store_sliver`: one sliver stored with retries; a
terminal failure is wrapped in a `SliverStoreError` carrying the pair index
and the axis.  Also returns the number of attempts made. -/
def NodeCommunication.store_sliver (nc : NodeCommunication)
    (oracle : StoreOracle) (pair_index : Nat) (ty : SliverType) :
    Except SliverStoreError Unit × Nat :=
  let r := retry nc.backoff_strategy (fun attempt =>
    oracle.store_sliver pair_index ty attempt)
  (r.1.mapError (fun e =>
    { pair_index := pair_index, sliver_type := ty, error := e }), r.2)

/-- The per-sliver store requests issued by `store_pairs`, in issue order:
for each pair, one task for the primary and one for the secondary sliver,
both keyed by the pair's index (communication.rs:225-233). -/
def sliver_requests (pairs : List SliverPair) : List (Nat × SliverType) :=
  pairs.flatMap (fun p =>
    [(p.index, SliverType.primary), (p.index, SliverType.secondary)])

/-- `NodeCommunication::store_pairs` processing of the unordered completion
stream: completions are consumed one by one; the first failure is returned
at once, abandoning the rest of the stream (communication.rs:237-255).
`order` is the order in which the concurrent tasks complete; the second
component is the list of completions actually consumed. -/
def NodeCommunication.store_pairs_ordered (nc : NodeCommunication)
    (oracle : StoreOracle) :
    List (Nat × SliverType) →
      Except SliverStoreError Unit × List (Nat × SliverType)
  | [] => (Except.ok (), [])
  | r :: rest =>
    match (nc.store_sliver oracle r.1 r.2).1 with
    | Except.error e => (Except.error e, [r])
    | Except.ok () =>
      ((nc.store_pairs_ordered oracle rest).1,
       r :: (nc.store_pairs_ordered oracle rest).2)

/-- Instrumentation of one `store_metadata_and_pairs` run: how many metadata
attempts were made, which sliver-store tasks were started, and whether the
confirmation request was issued. -/
structure OpTrace where
  metadata_attempts : Nat
  slivers_started : List (Nat × SliverType)
  confirmation_requested : Bool
deriving DecidableEq, Repr

/-- `NodeCommunication::store_metadata_and_pairs`: the three-stage write
pipeline (communication.rs:178-199).  Stage 1 stores metadata with retries
(failure becomes `StoreError.Metadata`); stage 2 runs all sliver-store tasks
concurrently, their completions arriving in `order` (failure propagates the
`SliverStoreError`); stage 3 requests the signed confirmation (failure
becomes `StoreError.Confirmation`).  The weight of the emitted `NodeResult`
is the node's owned-shard count. -/
def NodeCommunication.store_metadata_and_pairs (nc : NodeCommunication)
    (oracle : StoreOracle) (pairs : List SliverPair)
    (order : List (Nat × SliverType)) :
    NodeResult Confirmation StoreError × OpTrace :=
  match (nc.store_metadata_with_retries oracle).1 with
  | Except.error e =>
    (nc.to_node_result nc.n_owned_shards (Except.error (StoreError.Metadata e)),
     { metadata_attempts := (nc.store_metadata_with_retries oracle).2,
       slivers_started := [], confirmation_requested := false })
  | Except.ok () =>
    match (nc.store_pairs_ordered oracle order).1 with
    | Except.error e =>
      (nc.to_node_result nc.n_owned_shards
        (Except.error (StoreError.SliverStore e)),
       { metadata_attempts := (nc.store_metadata_with_retries oracle).2,
         slivers_started := sliver_requests pairs,
         confirmation_requested := false })
    | Except.ok () =>
      match oracle.confirmation with
      | Except.error e =>
        (nc.to_node_result nc.n_owned_shards
          (Except.error (StoreError.Confirmation e)),
         { metadata_attempts := (nc.store_metadata_with_retries oracle).2,
           slivers_started := sliver_requests pairs,
           confirmation_requested := true })
      | Except.ok c =>
        (nc.to_node_result nc.n_owned_shards (Except.ok c),
         { metadata_attempts := (nc.store_metadata_with_retries oracle).2,
           slivers_started := sliver_requests pairs,
           confirmation_requested := true })

/-- `NodeCommunication::retrieve_verified_metadata`: a single client call
(no retry, no admission gate in the source); the response is wrapped with
weight equal to the node's owned-shard count (communication.rs:137-147). -/
def NodeCommunication.retrieve_verified_metadata (nc : NodeCommunication)
    (response : Except NodeError BlobMetadata) :
    NodeResult BlobMetadata NodeError :=
  nc.to_node_result nc.n_owned_shards response

/-- `NodeCommunication::retrieve_verified_sliver`: a single client call for
the sliver-pair index derived from the shard index (the derivation happens
inside the external client call); the response is wrapped with weight 1
(communication.rs:152-169). -/
def NodeCommunication.retrieve_verified_sliver (nc : NodeCommunication)
    (response : Except NodeError Sliver) : NodeResult Sliver NodeError :=
  nc.to_node_result 1 response

/-- The two admission gates of the concurrency limiter: the per-peer
semaphore (`node_connection_limit`) and the committee-wide semaphore
(`global_connection_limit`). -/
inductive Sem where
  | node
  | global
deriving DecidableEq, Repr, Fintype

/-- How the underlying network call ends: normally, with an error, or by
being abandoned (cancellation). -/
inductive ExitKind where
  | success
  | failure
  | cancelled
deriving DecidableEq, Repr, Fintype

/-- An event of one sub-call: acquiring or releasing a semaphore permit, or
running the underlying network request (tagged with how it exits). -/
inductive Event where
  | acquire (s : Sem)
  | release (s : Sem)
  | request (e : ExitKind)
deriving DecidableEq, Repr

/-- Modelled from the spec: `FutureHelpers::batch_limit` lives in
`crate::utils`, not under `src/`; §4.2 and §9 describe it as scoped
acquisition: acquire a permit from the semaphore, run the wrapped future,
and release the permit when the inner future completes, on every exit path
(success, error, or cancellation). -/
def batch_limit (inner : List Event) (s : Sem) : List Event :=
  Event.acquire s :: inner ++ [Event.release s]

/-- The limiter events of one metadata-store attempt: the source chains
`.batch_limit(global_connection_limit).batch_limit(node_connection_limit)`
(communication.rs:209-210), so the global limit is the innermost wrapper
and the node limit the outermost. -/
def store_metadata_call_trace (e : ExitKind) : List Event :=
  batch_limit (batch_limit [Event.request e] Sem.global) Sem.node

/-- The limiter events of one sliver-store attempt: the source chains
`.batch_limit(global_connection_limit).batch_limit(node_connection_limit)`
(communication.rs:270-271), the global limit innermost. -/
def store_sliver_call_trace (e : ExitKind) : List Event :=
  batch_limit (batch_limit [Event.request e] Sem.global) Sem.node

/-- The limiter events of one `retrieve_verified_metadata` call: the source
awaits `get_and_verify_metadata` directly, with no `batch_limit` wrapper
(communication.rs:142-145). -/
def retrieve_metadata_call_trace (e : ExitKind) : List Event :=
  [Event.request e]

/-- The limiter events of one `retrieve_verified_sliver` call: the source
awaits `get_and_verify_sliver` directly, with no `batch_limit` wrapper
(communication.rs:162-165). -/
def retrieve_sliver_call_trace (e : ExitKind) : List Event :=
  [Event.request e]

/-- A trace performs its request under both admission gates: both permits
are acquired before the request runs and released after it. -/
def underBothGates (t : List Event) : Prop :=
  t.indexOf (Event.acquire Sem.node) < t.indexOf (Event.acquire Sem.global) ∧
  Event.acquire Sem.node ∈ t ∧ Event.acquire Sem.global ∈ t ∧
  Event.release Sem.node ∈ t ∧ Event.release Sem.global ∈ t

instance (t : List Event) : Decidable (underBothGates t) := by
  unfold underBothGates
  infer_instance

end Walrus

namespace Walrus

/-- C3: `NodeCommunication::new` returns `InvalidConfig` iff the node's
owned-shard set is empty, and succeeds exactly when it is non-empty. -/
theorem new_invalid_config_iff_empty_shards
    (node_index epoch : Nat) (node : StorageNode) (n_shards : Nat)
    (config : RequestRateConfig) :
    (NodeCommunication.new node_index epoch node n_shards config =
        Except.error ClientErrorKind.invalidConfig ↔ node.shard_ids = []) ∧
    (NodeCommunication.new node_index epoch node n_shards config).isOk =
      !node.shard_ids.isEmpty := by
  unfold NodeCommunication.new
  rcases h : node.shard_ids with _ | ⟨s, rest⟩ <;>
    simp [List.isEmpty, h, Except.isOk, Except.toBool]

/-- C4: for every shard count `n ≥ 1`, the BFT threshold arithmetic
satisfies `f = ⌊(n−1)/3⌋`, quorum `2f+1 ≤ n`, min-correct `= n − f`, and
`n − f ≥ (2f+1) − f`. -/
theorem bft_thresholds (n : Nat) (h : 1 ≤ n) :
    max_n_faulty n = (n - 1) / 3 ∧
    2 * max_n_faulty n + 1 ≤ n ∧
    min_n_correct n = n - max_n_faulty n ∧
    min_n_correct n ≥ (2 * max_n_faulty n + 1) - max_n_faulty n := by
  unfold min_n_correct max_n_faulty
  omega

/-- Witness for C4 at `n = 10`: `f = 3`, quorum `7 ≤ 10`, min-correct `7`. -/
theorem bft_thresholds_witness :
    max_n_faulty 10 = 3 ∧
    2 * max_n_faulty 10 + 1 ≤ 10 ∧
    min_n_correct 10 = 10 - max_n_faulty 10 ∧
    min_n_correct 10 ≥ (2 * max_n_faulty 10 + 1) - max_n_faulty 10 := by
  have h := bft_thresholds 10 (by decide)
  exact ⟨by decide, h.2.1, h.2.2.1, h.2.2.2⟩

/-- When every attempt fails, the retry loop makes one attempt per unit of
fuel plus the initial one, and returns the error of the last attempt. -/
theorem retryAux_all_fail {E T : Type} (f : Nat → Except E T) (err : Nat → E)
    (hf : ∀ i, f i = Except.error (err i)) :
    ∀ (fuel attempt : Nat),
      retryAux f fuel attempt =
        (Except.error (err (attempt + fuel)), attempt + fuel + 1) := by
  intro fuel
  induction fuel with
  | zero =>
    intro attempt
    simp [retryAux, hf attempt]
  | succ n ih =>
    intro attempt
    have h2 := ih (attempt + 1)
    have ha : attempt + 1 + n = attempt + (n + 1) := by omega
    rw [ha] at h2
    simp [retryAux, hf attempt, h2]

/-- When the first attempt succeeds, the retry loop stops after one attempt. -/
theorem retryAux_first_ok {E T : Type} (f : Nat → Except E T) (t : T)
    (hf : f 0 = Except.ok t) (fuel : Nat) :
    retryAux f fuel 0 = (Except.ok t, 1) := by
  simp [retryAux, hf]

/-- C8: the backoff delay for attempt `i` is the capped exponential
`min(max_delay, min_delay * 2^i)`, it is monotone in the attempt count,
it never exceeds the cap, and a retried call all of whose attempts fail
returns the error of the last attempt verbatim. -/
theorem backoff_properties {E T : Type} (b : ExponentialBackoff) (i j : Nat)
    (hij : i ≤ j) (f : Nat → Except E T) (err : Nat → E)
    (hf : ∀ k, f k = Except.error (err k)) :
    b.delay i = min b.max_backoff (b.min_backoff * 2 ^ i) ∧
    b.delay i ≤ b.delay j ∧
    b.delay i ≤ b.max_backoff ∧
    (retry b f).1 = Except.error (err b.max_retries) := by
  refine ⟨rfl, ?_, ?_, ?_⟩
  · exact min_le_min (Nat.le_refl _)
      (Nat.mul_le_mul_left _ (Nat.pow_le_pow_right (by norm_num) hij))
  · exact Nat.min_le_left _ _
  · rw [retry, retryAux_all_fail f err hf b.max_retries 0]
    simp

/-- A concrete backoff configuration used by the C8 witness. -/
def backoffW : ExponentialBackoff :=
  { min_backoff := 1, max_backoff := 10, max_retries := 2, seed := 0 }

/-- A concrete always-failing call used by the C8 witness. -/
def alwaysFailW : Nat → Except NodeError Unit :=
  fun k => Except.error { code := k }

/-- Witness for C8: a concrete backoff configuration and an always-failing
call, checked at attempts `1 ≤ 3`. -/
theorem backoff_properties_witness :
    backoffW.delay 1 = min backoffW.max_backoff (backoffW.min_backoff * 2 ^ 1) ∧
    backoffW.delay 1 ≤ backoffW.delay 3 ∧
    backoffW.delay 1 ≤ backoffW.max_backoff ∧
    (retry backoffW alwaysFailW).1 =
      Except.error { code := backoffW.max_retries } :=
  backoff_properties backoffW 1 3 (by decide) alwaysFailW
    (fun k => { code := k }) (fun _ => rfl)

/-- C1: when the metadata store always fails, `store_metadata_and_pairs`
makes at most `max_retries + 1` metadata attempts, returns a `NodeResult`
whose inner result is `StoreError.Metadata`, and issues no sliver-store and
no confirmation request. -/
theorem metadata_failure_short_circuits (nc : NodeCommunication)
    (oracle : StoreOracle) (pairs : List SliverPair)
    (order : List (Nat × SliverType)) (err : Nat → NodeError)
    (hf : ∀ i, oracle.store_metadata i = Except.error (err i)) :
    (nc.store_metadata_and_pairs oracle pairs order).2.metadata_attempts ≤
      nc.config.max_retries + 1 ∧
    (nc.store_metadata_and_pairs oracle pairs order).1.result =
      Except.error (StoreError.Metadata (err nc.config.max_retries)) ∧
    (nc.store_metadata_and_pairs oracle pairs order).2.slivers_started = [] ∧
    (nc.store_metadata_and_pairs oracle pairs order).2.confirmation_requested
      = false := by
  have hm : nc.store_metadata_with_retries oracle =
      (Except.error (err nc.config.max_retries), nc.config.max_retries + 1) := by
    rw [NodeCommunication.store_metadata_with_retries, retry,
      retryAux_all_fail oracle.store_metadata err hf]
    simp [NodeCommunication.backoff_strategy]
  simp [NodeCommunication.store_metadata_and_pairs, hm,
    NodeCommunication.to_node_result]

/-- The `NodeResult` emitted by the write pipeline always carries the
client's epoch and node index, and its weight is always the node's
owned-shard count. -/
theorem store_metadata_and_pairs_shape (nc : NodeCommunication)
    (oracle : StoreOracle) (pairs : List SliverPair)
    (order : List (Nat × SliverType)) :
    (nc.store_metadata_and_pairs oracle pairs order).1.epoch = nc.epoch ∧
    (nc.store_metadata_and_pairs oracle pairs order).1.node_index =
      nc.node_index ∧
    (nc.store_metadata_and_pairs oracle pairs order).1.weight =
      nc.n_owned_shards := by
  unfold NodeCommunication.store_metadata_and_pairs
  split
  · exact ⟨rfl, rfl, rfl⟩
  · split
    · exact ⟨rfl, rfl, rfl⟩
    · split <;> exact ⟨rfl, rfl, rfl⟩

/-- C5: `retrieve_verified_metadata` carries weight equal to the node's
owned-shard count, `retrieve_verified_sliver` carries weight 1, and
`store_metadata_and_pairs` carries weight equal to the owned-shard count. -/
theorem operation_weights (nc : NodeCommunication)
    (mresp : Except NodeError BlobMetadata) (sresp : Except NodeError Sliver)
    (oracle : StoreOracle) (pairs : List SliverPair)
    (order : List (Nat × SliverType)) :
    (nc.retrieve_verified_metadata mresp).weight = nc.n_owned_shards ∧
    (nc.retrieve_verified_sliver sresp).weight = 1 ∧
    (nc.store_metadata_and_pairs oracle pairs order).1.weight =
      nc.n_owned_shards :=
  ⟨rfl, rfl, (store_metadata_and_pairs_shape nc oracle pairs order).2.2⟩

/-- C9: every `NodeResult` emitted by the three public operations of a
successfully constructed client carries the epoch and node index the client
was constructed with, and a weight of at least 1. -/
theorem node_result_invariants (node_index epoch : Nat) (node : StorageNode)
    (n_shards : Nat) (config : RequestRateConfig) (nc : NodeCommunication)
    (hnew : NodeCommunication.new node_index epoch node n_shards config =
      Except.ok nc)
    (mresp : Except NodeError BlobMetadata) (sresp : Except NodeError Sliver)
    (oracle : StoreOracle) (pairs : List SliverPair)
    (order : List (Nat × SliverType)) :
    ((nc.retrieve_verified_metadata mresp).epoch = epoch ∧
      (nc.retrieve_verified_metadata mresp).node_index = node_index ∧
      1 ≤ (nc.retrieve_verified_metadata mresp).weight) ∧
    ((nc.retrieve_verified_sliver sresp).epoch = epoch ∧
      (nc.retrieve_verified_sliver sresp).node_index = node_index ∧
      1 ≤ (nc.retrieve_verified_sliver sresp).weight) ∧
    ((nc.store_metadata_and_pairs oracle pairs order).1.epoch = epoch ∧
      (nc.store_metadata_and_pairs oracle pairs order).1.node_index =
        node_index ∧
      1 ≤ (nc.store_metadata_and_pairs oracle pairs order).1.weight) := by
  have hsplit : nc.epoch = epoch ∧ nc.node_index = node_index ∧
      nc.node = node ∧ node.shard_ids ≠ [] := by
    unfold NodeCommunication.new at hnew
    split at hnew
    · cases hnew
    · cases hnew
      rename_i h
      refine ⟨rfl, rfl, rfl, ?_⟩
      simpa using h
  obtain ⟨hepoch, hindex, hnode, hne⟩ := hsplit
  have howned : 1 ≤ nc.n_owned_shards := by
    rw [NodeCommunication.n_owned_shards, hnode]
    exact List.length_pos.mpr hne
  have hshape := store_metadata_and_pairs_shape nc oracle pairs order
  refine ⟨⟨hepoch, hindex, howned⟩, ⟨hepoch, hindex, Nat.le_refl 1⟩,
    ?_, ?_, ?_⟩
  · rw [hshape.1]
    exact hepoch
  · rw [hshape.2.1]
    exact hindex
  · rw [hshape.2.2]
    exact howned

/-- A concrete storage node used by the witnesses. -/
def nodeW : StorageNode :=
  { shard_ids := [3, 7] }

/-- A concrete request-rate configuration used by the witnesses. -/
def configW : RequestRateConfig :=
  { max_node_connections := 2, min_backoff := 1, max_backoff := 8,
    max_retries := 2 }

/-- A concrete client used by the witnesses. -/
def ncW : NodeCommunication :=
  { node_index := 0, epoch := 5, node := nodeW, n_shards := 10,
    config := configW }

/-- Two concrete sliver pairs used by the witnesses. -/
def pairsW : List SliverPair :=
  [{ index := 0, primary := { data := 0 }, secondary := { data := 1 } },
   { index := 1, primary := { data := 2 }, secondary := { data := 3 } }]

/-- The issue-order completion order for `pairsW`. -/
def orderW : List (Nat × SliverType) :=
  sliver_requests pairsW

/-- A concrete oracle whose metadata store always fails. -/
def oracleMetaFailW : StoreOracle :=
  { store_metadata := fun i => Except.error { code := i },
    store_sliver := fun _ _ _ => Except.ok (),
    confirmation := Except.ok { signature := 0 } }

/-- Witness for C1: the concrete always-failing-metadata oracle. -/
theorem metadata_failure_short_circuits_witness :
    (ncW.store_metadata_and_pairs oracleMetaFailW pairsW orderW).2.metadata_attempts ≤
      ncW.config.max_retries + 1 ∧
    (ncW.store_metadata_and_pairs oracleMetaFailW pairsW orderW).1.result =
      Except.error (StoreError.Metadata { code := ncW.config.max_retries }) ∧
    (ncW.store_metadata_and_pairs oracleMetaFailW pairsW orderW).2.slivers_started
      = [] ∧
    (ncW.store_metadata_and_pairs oracleMetaFailW pairsW orderW).2.confirmation_requested
      = false :=
  metadata_failure_short_circuits ncW oracleMetaFailW pairsW orderW
    (fun i => { code := i }) (fun _ => rfl)

/-- Witness for C9: the concrete client constructed from `nodeW`. -/
theorem node_result_invariants_witness :
    ((ncW.retrieve_verified_metadata (Except.error { code := 1 })).epoch = 5 ∧
      (ncW.retrieve_verified_metadata (Except.error { code := 1 })).node_index
        = 0 ∧
      1 ≤ (ncW.retrieve_verified_metadata (Except.error { code := 1 })).weight) ∧
    ((ncW.retrieve_verified_sliver (Except.error { code := 2 })).epoch = 5 ∧
      (ncW.retrieve_verified_sliver (Except.error { code := 2 })).node_index
        = 0 ∧
      1 ≤ (ncW.retrieve_verified_sliver (Except.error { code := 2 })).weight) ∧
    ((ncW.store_metadata_and_pairs oracleMetaFailW pairsW orderW).1.epoch = 5 ∧
      (ncW.store_metadata_and_pairs oracleMetaFailW pairsW orderW).1.node_index
        = 0 ∧
      1 ≤ (ncW.store_metadata_and_pairs oracleMetaFailW pairsW orderW).1.weight) :=
  node_result_invariants 0 5 nodeW 10 configW ncW rfl
    (Except.error { code := 1 }) (Except.error { code := 2 })
    oracleMetaFailW pairsW orderW

/-- A sub-call trace realizes the scoped nested acquisition discipline: the
per-peer permit is acquired first, the global permit only after it, the
request runs while both are held, and the permits are released in reverse
order. -/
def scopedNestedAcquisition (t : List Event) (e : ExitKind) : Prop :=
  Event.acquire Sem.node ∈ t ∧ Event.acquire Sem.global ∈ t ∧
  Event.request e ∈ t ∧ Event.release Sem.global ∈ t ∧
  Event.release Sem.node ∈ t ∧
  t.indexOf (Event.acquire Sem.node) < t.indexOf (Event.acquire Sem.global) ∧
  t.indexOf (Event.acquire Sem.global) < t.indexOf (Event.request e) ∧
  t.indexOf (Event.request e) < t.indexOf (Event.release Sem.global) ∧
  t.indexOf (Event.release Sem.global) < t.indexOf (Event.release Sem.node)

instance (t : List Event) (e : ExitKind) :
    Decidable (scopedNestedAcquisition t e) := by
  unfold scopedNestedAcquisition
  infer_instance

/-- C6: on every exit path (success, error, cancellation), both store
sub-calls acquire the per-peer permit first, acquire the global permit only
once the per-peer one is granted, and release the two permits in reverse
order after the network call. -/
theorem permit_ordering :
    ∀ e : ExitKind,
      scopedNestedAcquisition (store_metadata_call_trace e) e ∧
      scopedNestedAcquisition (store_sliver_call_trace e) e := by
  decide

/-- Counterexample for C7: `retrieve_verified_metadata` issues its network
request under neither admission gate. -/
theorem reads_not_gated_counterexample :
    ¬ underBothGates (retrieve_metadata_call_trace ExitKind.success) := by
  decide

/-- C7 (amended): only the write sub-calls run under both admission gates;
the two read operations issue their network request without acquiring
either permit. -/
theorem only_write_subcalls_gated :
    ∀ e : ExitKind,
      underBothGates (store_metadata_call_trace e) ∧
      underBothGates (store_sliver_call_trace e) ∧
      (∀ s : Sem, Event.acquire s ∉ retrieve_metadata_call_trace e) ∧
      (∀ s : Sem, Event.acquire s ∉ retrieve_sliver_call_trace e) := by
  decide

/-- C10: with an empty collection of sliver pairs the sliver stage returns
`ok` at once and starts no sliver-store task, so the outcome of
`store_metadata_and_pairs` is decided solely by the metadata stage and the
confirmation stage. -/
theorem empty_pairs_trivial_sliver_stage (nc : NodeCommunication)
    (oracle : StoreOracle) (order : List (Nat × SliverType))
    (hperm : order.Perm (sliver_requests [])) :
    (nc.store_pairs_ordered oracle order).1 = Except.ok () ∧
    (nc.store_metadata_and_pairs oracle [] order).1.result =
      (match (nc.store_metadata_with_retries oracle).1 with
       | Except.error e => Except.error (StoreError.Metadata e)
       | Except.ok _ => oracle.confirmation.mapError StoreError.Confirmation) ∧
    (nc.store_metadata_and_pairs oracle [] order).2.slivers_started = [] := by
  have horder : order = [] := List.Perm.eq_nil hperm
  subst horder
  refine ⟨rfl, ?_, ?_⟩
  · unfold NodeCommunication.store_metadata_and_pairs
    rcases h : (nc.store_metadata_with_retries oracle).1 with e | u
    · simp [h, NodeCommunication.to_node_result]
    · rcases hc : oracle.confirmation with e | c <;>
        simp [h, hc, NodeCommunication.store_pairs_ordered,
          NodeCommunication.to_node_result, Except.mapError]
  · unfold NodeCommunication.store_metadata_and_pairs
    rcases h : (nc.store_metadata_with_retries oracle).1 with e | u
    · simp [h]
    · rcases hc : oracle.confirmation with e | c <;>
        simp [h, hc, NodeCommunication.store_pairs_ordered,
          sliver_requests]

/-- Witness for C10: the concrete client with no sliver pairs. -/
theorem empty_pairs_trivial_sliver_stage_witness :
    (ncW.store_pairs_ordered oracleMetaFailW []).1 = Except.ok () ∧
    (ncW.store_metadata_and_pairs oracleMetaFailW [] []).1.result =
      (match (ncW.store_metadata_with_retries oracleMetaFailW).1 with
       | Except.error e => Except.error (StoreError.Metadata e)
       | Except.ok _ =>
         oracleMetaFailW.confirmation.mapError StoreError.Confirmation) ∧
    (ncW.store_metadata_and_pairs oracleMetaFailW [] []).2.slivers_started
      = [] :=
  empty_pairs_trivial_sliver_stage ncW oracleMetaFailW [] (List.Perm.refl [])

/-- A sliver whose store always fails ends, after exhausting its retries, in
a `SliverStoreError` carrying its pair index and axis. -/
theorem store_sliver_all_fail (nc : NodeCommunication) (oracle : StoreOracle)
    (k : Nat) (ty : SliverType) (err : NodeError)
    (hf : ∀ attempt,
      oracle.store_sliver k ty attempt = Except.error err) :
    (nc.store_sliver oracle k ty).1 =
      Except.error { pair_index := k, sliver_type := ty, error := err } := by
  unfold NodeCommunication.store_sliver
  rw [retry, retryAux_all_fail (fun attempt => oracle.store_sliver k ty attempt)
    (fun _ => err) (fun i => hf i)]
  simp [Except.mapError]

/-- A sliver whose store succeeds on the first attempt is stored. -/
theorem store_sliver_first_ok (nc : NodeCommunication) (oracle : StoreOracle)
    (k : Nat) (ty : SliverType)
    (hf : oracle.store_sliver k ty 0 = Except.ok ()) :
    (nc.store_sliver oracle k ty).1 = Except.ok () := by
  unfold NodeCommunication.store_sliver
  rw [retry, retryAux_first_ok (fun attempt => oracle.store_sliver k ty attempt)
    () hf]
  simp [Except.mapError]

/-- Consuming the completion stream stops at the first failing task: when
exactly the task `(k, secondary)` fails and every other task in the stream
succeeds, `store_pairs_ordered` returns that task's error having consumed
only the successful completions that arrived before it. -/
theorem store_pairs_ordered_first_failure (nc : NodeCommunication)
    (oracle : StoreOracle) (k : Nat) (e : SliverStoreError)
    (hkfail : (nc.store_sliver oracle k SliverType.secondary).1 =
      Except.error e) :
    ∀ order : List (Nat × SliverType),
      (k, SliverType.secondary) ∈ order →
      (∀ r ∈ order, r ≠ (k, SliverType.secondary) →
        (nc.store_sliver oracle r.1 r.2).1 = Except.ok ()) →
      ∃ pre suf,
        order = pre ++ (k, SliverType.secondary) :: suf ∧
        (k, SliverType.secondary) ∉ pre ∧
        nc.store_pairs_ordered oracle order =
          (Except.error e, pre ++ [(k, SliverType.secondary)]) := by
  intro order
  induction order with
  | nil =>
    intro hmem _
    cases hmem
  | cons r rest ih =>
    intro hmem hok
    by_cases hr : r = (k, SliverType.secondary)
    · refine ⟨[], rest, by rw [hr]; rfl, by simp, ?_⟩
      subst hr
      simp [NodeCommunication.store_pairs_ordered, hkfail]
    · have hmem' : (k, SliverType.secondary) ∈ rest := by
        rcases List.mem_cons.mp hmem with h | h
        · exact absurd h.symm hr
        · exact h
      have hok' : ∀ x ∈ rest, x ≠ (k, SliverType.secondary) →
          (nc.store_sliver oracle x.1 x.2).1 = Except.ok () :=
        fun x hx => hok x (List.mem_cons_of_mem r hx)
      obtain ⟨pre, suf, heq, hpre, hres⟩ := ih hmem' hok'
      have hrok : (nc.store_sliver oracle r.1 r.2).1 = Except.ok () :=
        hok r (List.mem_cons_self r rest) hr
      refine ⟨r :: pre, suf, by rw [heq]; rfl, ?_, ?_⟩
      · intro hmemc
        rcases List.mem_cons.mp hmemc with h | h
        · exact hr h.symm
        · exact hpre h
      · simp [NodeCommunication.store_pairs_ordered, hrok, hres]

/-- C2: when metadata storage succeeds, exactly the sliver task with pair
index `k` on the secondary axis always fails, and all other sliver tasks
succeed, `store_metadata_and_pairs` returns a `SliverStoreError` carrying
pair index `k` and the secondary axis, and it stops consuming the
completion stream at that failure: only the successful completions that
arrived before it are consumed, the rest of the stream is abandoned. -/
theorem single_sliver_failure (nc : NodeCommunication) (oracle : StoreOracle)
    (pairs : List SliverPair) (order : List (Nat × SliverType)) (k : Nat)
    (err : NodeError)
    (hperm : order.Perm (sliver_requests pairs))
    (hmeta : oracle.store_metadata 0 = Except.ok ())
    (hmem : (k, SliverType.secondary) ∈ sliver_requests pairs)
    (hfail : ∀ attempt,
      oracle.store_sliver k SliverType.secondary attempt = Except.error err)
    (hok : ∀ r ∈ sliver_requests pairs, r ≠ (k, SliverType.secondary) →
      ∀ attempt, oracle.store_sliver r.1 r.2 attempt = Except.ok ()) :
    ∃ pre suf,
      order = pre ++ (k, SliverType.secondary) :: suf ∧
      (k, SliverType.secondary) ∉ pre ∧
      (nc.store_metadata_and_pairs oracle pairs order).1.result =
        Except.error (StoreError.SliverStore
          { pair_index := k, sliver_type := SliverType.secondary,
            error := err }) ∧
      (nc.store_pairs_ordered oracle order).2 =
        pre ++ [(k, SliverType.secondary)] := by
  have hkfail := store_sliver_all_fail nc oracle k SliverType.secondary err hfail
  have hmem' : (k, SliverType.secondary) ∈ order := hperm.mem_iff.mpr hmem
  have hok' : ∀ r ∈ order, r ≠ (k, SliverType.secondary) →
      (nc.store_sliver oracle r.1 r.2).1 = Except.ok () := by
    intro r hr hne
    exact store_sliver_first_ok nc oracle r.1 r.2
      (hok r (hperm.mem_iff.mp hr) hne 0)
  obtain ⟨pre, suf, heq, hpre, hres⟩ :=
    store_pairs_ordered_first_failure nc oracle k _ hkfail order hmem' hok'
  have hmetaok : (nc.store_metadata_with_retries oracle).1 = Except.ok () := by
    rw [NodeCommunication.store_metadata_with_retries, retry,
      retryAux_first_ok oracle.store_metadata () hmeta]
  refine ⟨pre, suf, heq, hpre, ?_, ?_⟩
  · unfold NodeCommunication.store_metadata_and_pairs
    simp [hmetaok, hres, NodeCommunication.to_node_result]
  · rw [hres]

/-- A concrete oracle where exactly the sliver task `(1, secondary)` fails
(on every attempt) and every other task succeeds. -/
def oracleSliverFailW : StoreOracle :=
  { store_metadata := fun _ => Except.ok (),
    store_sliver := fun p ty _ =>
      if p = 1 ∧ ty = SliverType.secondary then Except.error { code := 9 }
      else Except.ok (),
    confirmation := Except.ok { signature := 0 } }

/-- Witness for C2: the concrete client with two pairs, where only the
secondary sliver of pair 1 fails. -/
theorem single_sliver_failure_witness :
    ∃ pre suf,
      orderW = pre ++ (1, SliverType.secondary) :: suf ∧
      (1, SliverType.secondary) ∉ pre ∧
      (ncW.store_metadata_and_pairs oracleSliverFailW pairsW orderW).1.result =
        Except.error (StoreError.SliverStore
          { pair_index := 1, sliver_type := SliverType.secondary,
            error := { code := 9 } }) ∧
      (ncW.store_pairs_ordered oracleSliverFailW orderW).2 =
        pre ++ [(1, SliverType.secondary)] :=
  single_sliver_failure ncW oracleSliverFailW pairsW orderW 1 { code := 9 }
    (List.Perm.refl _) rfl (by decide) (fun _ => rfl)
    (by
      intro r hr hne attempt
      fin_cases hr <;> simp_all [oracleSliverFailW])

end Walrus
